import Mathlib

/-!
# Verification of the angle-mode PID flight-stabilization core

Shallow embedding of the repository's two source files:
- `src/pid/angle.rs`: `AngleControlData` and the `compute_angle` strategy;
- `src/stabilizer/flight_stabilizer.rs`: the `Number` clamp operation and
  `FlightStabilizerConfig`.

The generic numeric parameter `T: Number` of the Rust code (total order,
ring arithmetic, zero/one, clamp) is modelled by `LinearOrderedField`,
the idealized real-number representation the spec describes.  All
definitions are computable so that every theorem can be evaluated at `ℚ`.
-/

namespace PidFlight

/-- Embeds `Number::clamp` from `src/stabilizer/flight_stabilizer.rs`:
`if self < min { min } else if max < self { max } else { self }`. -/
def Number.clamp {T : Type} [LinearOrderedField T] (self min max : T) : T :=
  if self < min then min
  else if max < self then max
  else self

/-- Embeds the struct `AngleControlData<T>` from `src/pid/angle.rs`. -/
structure AngleControlData (T : Type) where
  measurement : T
  rate : T
  dt : T
  integral_limit : T
  reset_integral : Bool
deriving Repr, DecidableEq

/-- The portion of `piddiy::PidController<T, _>` state that the repository's
code reads and the engine persists: setpoint, gains, and accumulated
integral (spec §3 "Engine State"). -/
structure PidController (T : Type) where
  set_point : T
  kp : T
  ki : T
  kd : T
  integral : T
deriving Repr, DecidableEq

/-- Embeds `compute_angle` from `src/pid/angle.rs`:
```
let error = pid.set_point - data.measurement;
let integral = if !data.reset_integral {
    (pid.integral + error * data.dt).clamp(-data.integral_limit, data.integral_limit)
} else {
    T::zero()
};
let derivative = data.rate;
(error, integral, derivative)
```
The Rust function takes `&mut PidController` but performs no assignment,
so the embedding is a pure function of the controller state and the data. -/
def compute_angle {T : Type} [LinearOrderedField T]
    (pid : PidController T) (data : AngleControlData T) : T × T × T :=
  let error := pid.set_point - data.measurement
  let integral :=
    if !data.reset_integral then
      Number.clamp (pid.integral + error * data.dt) (-data.integral_limit) data.integral_limit
    else
      (0 : T)
  let derivative := data.rate
  (error, integral, derivative)

/-- State-passing rendering of `compute_angle`'s `&mut` signature: the body
of the Rust function contains no assignment to `pid`, so the controller
state flows through unchanged alongside the returned triple. -/
def compute_angle_mut {T : Type} [LinearOrderedField T]
    (pid : PidController T) (data : AngleControlData T) :
    (T × T × T) × PidController T :=
  (compute_angle pid data, pid)

/-- Modelled from the spec: the accumulation engine's `tick` (the `piddiy`
crate's `PidController::compute`, not under `src/`).  Spec §4.2: invoke the
compute strategy on the current persisted state and the data, "Store the
returned `integral` as the new persisted integral", and
"Compute `output = kp * error + ki * integral + kd * derivative`". -/
def tick {T : Type} [LinearOrderedField T]
    (pid : PidController T) (data : AngleControlData T) : PidController T × T :=
  let r := compute_angle pid data
  ({ pid with integral := r.2.1 }, pid.kp * r.1 + pid.ki * r.2.1 + pid.kd * r.2.2)

/-- Iterating the engine tick with the same `AngleControlData` every time
(spec §8, accumulation law). -/
def iterate_ticks {T : Type} [LinearOrderedField T]
    (pid : PidController T) (data : AngleControlData T) : Nat → PidController T
  | 0 => pid
  | n + 1 => (tick (iterate_ticks pid data n) data).1

/-- Embeds the struct `FlightStabilizerConfig<T>` from
`src/stabilizer/flight_stabilizer.rs`. -/
structure FlightStabilizerConfig (T : Type) where
  kp_roll : T
  ki_roll : T
  kd_roll : T
  kp_pitch : T
  ki_pitch : T
  kd_pitch : T
  kp_yaw : T
  ki_yaw : T
  kd_yaw : T
  set_point_roll : T
  set_point_pitch : T
  set_point_yaw : T
  i_limit : T
  scale : T
deriving Repr, DecidableEq

/-- Embeds `FlightStabilizerConfig::new` from
`src/stabilizer/flight_stabilizer.rs`. -/
def FlightStabilizerConfig.new (T : Type) [LinearOrderedField T] :
    FlightStabilizerConfig T :=
  { kp_roll := 1
    ki_roll := 0
    kd_roll := 0
    kp_pitch := 1
    ki_pitch := 0
    kd_pitch := 0
    kp_yaw := 1
    ki_yaw := 0
    kd_yaw := 0
    set_point_roll := 0
    set_point_pitch := 0
    set_point_yaw := 0
    i_limit := 1
    scale := 1 }

/-- Operation-counting rendering of `Number::clamp`: same result, paired
with the number of comparisons the source performs on that input. -/
def clamp_ops {T : Type} [LinearOrderedField T] (self min max : T) : T × Nat :=
  if self < min then (min, 1)
  else if max < self then (max, 2)
  else (self, 2)

/-- Operation-counting rendering of `compute_angle`: same result triple,
paired with the number of arithmetic operations and comparisons the source
performs on that input (subtraction; then, when `reset_integral` is false,
addition, multiplication, negation and the clamp's comparisons). -/
def compute_angle_ops {T : Type} [LinearOrderedField T]
    (pid : PidController T) (data : AngleControlData T) : (T × T × T) × Nat :=
  let error := pid.set_point - data.measurement
  let integralResult :=
    if !data.reset_integral then
      let c := clamp_ops (pid.integral + error * data.dt)
        (-data.integral_limit) data.integral_limit
      (c.1, 3 + c.2)
    else
      ((0 : T), 0)
  let derivative := data.rate
  ((error, integralResult.1, derivative), 1 + integralResult.2)

/-- When the clamp bounds are ordered, the clamped value lies between them. -/
theorem Number.clamp_mem {T : Type} [LinearOrderedField T] (v : T) {lo hi : T}
    (h : lo ≤ hi) : lo ≤ Number.clamp v lo hi ∧ Number.clamp v lo hi ≤ hi := by
  unfold Number.clamp
  split_ifs with h1 h2
  · exact ⟨le_rfl, h⟩
  · exact ⟨h, le_rfl⟩
  · exact ⟨le_of_not_lt h1, le_of_not_lt h2⟩

/-- A value already inside the clamp bounds is returned unchanged. -/
theorem Number.clamp_of_mem {T : Type} [LinearOrderedField T] {v lo hi : T}
    (h1 : lo ≤ v) (h2 : v ≤ hi) : Number.clamp v lo hi = v := by
  unfold Number.clamp
  rw [if_neg (not_lt.mpr h1), if_neg (not_lt.mpr h2)]

/-- The engine tick updates only the persisted integral; setpoint and gains
survive unchanged. -/
theorem tick_preserves_set_point {T : Type} [LinearOrderedField T]
    (pid : PidController T) (data : AngleControlData T) :
    (tick pid data).1.set_point = pid.set_point := rfl

/-- Iterated ticks never change the setpoint. -/
theorem iterate_ticks_set_point {T : Type} [LinearOrderedField T]
    (pid : PidController T) (data : AngleControlData T) (n : Nat) :
    (iterate_ticks pid data n).set_point = pid.set_point := by
  induction n with
  | zero => rfl
  | succ m ih => simpa [iterate_ticks, tick_preserves_set_point] using ih

/-- C1: `compute_angle` returns exactly the triple whose error is
`set_point - measurement`, whose integral is the clamp of
`persisted_integral + error * dt` to `[-integral_limit, integral_limit]`
when `reset_integral` is false and zero when it is true, and whose
derivative is `rate`. -/
theorem compute_angle_formula {T : Type} [LinearOrderedField T]
    (pid : PidController T) (data : AngleControlData T) :
    compute_angle pid data =
      (pid.set_point - data.measurement,
       if data.reset_integral = false then
         Number.clamp (pid.integral + (pid.set_point - data.measurement) * data.dt)
           (-data.integral_limit) data.integral_limit
       else (0 : T),
       data.rate) := by
  cases h : data.reset_integral <;> simp [compute_angle, h]

/-- C2: with `0 ≤ integral_limit` and `reset_integral = false`, the integral
returned by `compute_angle` — and therefore the value the engine persists as
the new state after the tick — lies within `[-integral_limit, integral_limit]`. -/
theorem compute_angle_integral_bounded {T : Type} [LinearOrderedField T]
    (pid : PidController T) (data : AngleControlData T)
    (hL : 0 ≤ data.integral_limit) (hr : data.reset_integral = false) :
    -data.integral_limit ≤ (compute_angle pid data).2.1 ∧
    (compute_angle pid data).2.1 ≤ data.integral_limit ∧
    (tick pid data).1.integral = (compute_angle pid data).2.1 := by
  have hord : -data.integral_limit ≤ data.integral_limit :=
    le_trans (neg_nonpos.mpr hL) hL
  have hmem := Number.clamp_mem
    (pid.integral + (pid.set_point - data.measurement) * data.dt) hord
  refine ⟨?_, ?_, rfl⟩ <;> simp only [compute_angle, hr, Bool.not_false, if_pos]
  · exact hmem.1
  · exact hmem.2

/-- C3: a tick with `reset_integral = true` returns an integral of exactly
zero regardless of the prior accumulated integral and of measurement, rate,
dt and integral_limit; the engine persists that zero, and a subsequent tick
without reset accumulates from zero — its integral is the clamp of
`error * dt` alone, with no trace of the pre-reset value. -/
theorem compute_angle_reset_integral {T : Type} [LinearOrderedField T]
    (pid : PidController T) (data data' : AngleControlData T)
    (h : data.reset_integral = true) (h' : data'.reset_integral = false) :
    (compute_angle pid data).2.1 = 0 ∧
    (tick pid data).1.integral = 0 ∧
    (compute_angle (tick pid data).1 data').2.1 =
      Number.clamp ((pid.set_point - data'.measurement) * data'.dt)
        (-data'.integral_limit) data'.integral_limit := by
  refine ⟨?_, ?_, ?_⟩ <;> simp [compute_angle, tick, h, h']

/-- C4: starting from a persisted integral of zero and iterating the engine
tick N times with the same data (reset off), if no partial sum
`k * error * dt` for `k ≤ N` exceeds the clamp bound in absolute value,
then the persisted integral after N ticks is exactly `N * error * dt`. -/
theorem integral_accumulation_law {T : Type} [LinearOrderedField T]
    (pid : PidController T) (data : AngleControlData T) (N : Nat)
    (h0 : pid.integral = 0) (hr : data.reset_integral = false)
    (hcl : ∀ k : Nat, k ≤ N →
      |(k : T) * ((pid.set_point - data.measurement) * data.dt)|
        ≤ data.integral_limit) :
    (iterate_ticks pid data N).integral =
      (N : T) * ((pid.set_point - data.measurement) * data.dt) := by
  induction N with
  | zero => simpa [iterate_ticks] using h0
  | succ n ih =>
    have hprev := ih (fun k hk => hcl k (Nat.le_succ_of_le hk))
    have hv := hcl (n + 1) le_rfl
    rw [abs_le] at hv
    have hstep : (iterate_ticks pid data (n + 1)).integral =
        Number.clamp ((iterate_ticks pid data n).integral
          + ((iterate_ticks pid data n).set_point - data.measurement) * data.dt)
          (-data.integral_limit) data.integral_limit := by
      simp [iterate_ticks, tick, compute_angle, hr]
    rw [hstep, iterate_ticks_set_point, hprev]
    have hsum : (n : T) * ((pid.set_point - data.measurement) * data.dt)
        + (pid.set_point - data.measurement) * data.dt
        = ((n + 1 : Nat) : T) * ((pid.set_point - data.measurement) * data.dt) := by
      push_cast
      ring
    rw [hsum]
    exact Number.clamp_of_mem (neg_le.mp (neg_le.mpr hv.1)) hv.2

/-- C5: when `min ≤ max`, `Number::clamp` returns `min` if the value is
below `min`, returns `max` if the value is above `max`, and otherwise
returns the value unchanged; being a pure function of its arguments, it has
no side effects. -/
theorem clamp_within_ordered_bounds {T : Type} [LinearOrderedField T]
    (value lo hi : T) (h : lo ≤ hi) :
    (value < lo → Number.clamp value lo hi = lo) ∧
    (hi < value → Number.clamp value lo hi = hi) ∧
    (lo ≤ value → value ≤ hi → Number.clamp value lo hi = value) := by
  refine ⟨fun h1 => ?_, fun h2 => ?_, fun h1 h2 => Number.clamp_of_mem h1 h2⟩
  · unfold Number.clamp
    rw [if_pos h1]
  · unfold Number.clamp
    rw [if_neg (not_lt.mpr (le_trans h (le_of_lt h2))), if_pos h2]

/-- C6: `compute_angle` is pure — rendered with its `&mut` signature as a
state-passing function, it returns the controller state unchanged, and a
second call on that returned state with the same data yields the identical
`(error, integral, derivative)` triple. -/
theorem compute_angle_is_pure {T : Type} [LinearOrderedField T]
    (pid : PidController T) (data : AngleControlData T) :
    (compute_angle_mut pid data).2 = pid ∧
    (compute_angle_mut (compute_angle_mut pid data).2 data).1 =
      (compute_angle_mut pid data).1 ∧
    (compute_angle_mut pid data).1 = compute_angle pid data :=
  ⟨rfl, rfl, rfl⟩

/-- The instrumented clamp computes the same value as `Number.clamp`. -/
theorem clamp_ops_fst {T : Type} [LinearOrderedField T] (v lo hi : T) :
    (clamp_ops v lo hi).1 = Number.clamp v lo hi := by
  unfold clamp_ops Number.clamp
  split_ifs <;> rfl

/-- C7: both core operations are total functions computed by a bounded,
input-independent number of arithmetic operations and comparisons: the
instrumented renderings agree with the pure functions on every input and
perform at most 6 (for `compute_angle`) and 2 (for `Number::clamp`)
operations, with no fallible result. -/
theorem core_operations_total {T : Type} [LinearOrderedField T]
    (pid : PidController T) (data : AngleControlData T) (v lo hi : T) :
    (compute_angle_ops pid data).1 = compute_angle pid data ∧
    (compute_angle_ops pid data).2 ≤ 6 ∧
    (clamp_ops v lo hi).1 = Number.clamp v lo hi ∧
    (clamp_ops v lo hi).2 ≤ 2 := by
  refine ⟨?_, ?_, clamp_ops_fst v lo hi, ?_⟩
  · cases h : data.reset_integral <;>
      simp [compute_angle_ops, compute_angle, clamp_ops_fst, h]
  · cases h : data.reset_integral <;>
      simp only [compute_angle_ops, h, Bool.not_false, Bool.not_true,
        if_pos, if_neg, clamp_ops] <;> split_ifs <;> norm_num
  · unfold clamp_ops
    split_ifs <;> norm_num

/-- C8: the default configuration has identity-like gains on every axis:
`kp = 1`, `ki = 0`, `kd = 0` for roll, pitch and yaw. -/
theorem config_new_identity_gains (T : Type) [LinearOrderedField T] :
    (FlightStabilizerConfig.new T).kp_roll = 1 ∧
    (FlightStabilizerConfig.new T).ki_roll = 0 ∧
    (FlightStabilizerConfig.new T).kd_roll = 0 ∧
    (FlightStabilizerConfig.new T).kp_pitch = 1 ∧
    (FlightStabilizerConfig.new T).ki_pitch = 0 ∧
    (FlightStabilizerConfig.new T).kd_pitch = 0 ∧
    (FlightStabilizerConfig.new T).kp_yaw = 1 ∧
    (FlightStabilizerConfig.new T).ki_yaw = 0 ∧
    (FlightStabilizerConfig.new T).kd_yaw = 0 :=
  ⟨rfl, rfl, rfl, rfl, rfl, rfl, rfl, rfl, rfl⟩

/-- C9: with inverted bounds (`max < min`), `Number::clamp` is still total
and deterministic: it returns `min` whenever the value is below `min` and
`max` otherwise, so the result is always one of the two bounds and never
the unchanged input. -/
theorem clamp_inverted_bounds {T : Type} [LinearOrderedField T]
    (value lo hi : T) (h : hi < lo) :
    (value < lo → Number.clamp value lo hi = lo) ∧
    (¬ value < lo → Number.clamp value lo hi = hi) ∧
    (Number.clamp value lo hi = lo ∨ Number.clamp value lo hi = hi) ∧
    Number.clamp value lo hi ≠ value := by
  unfold Number.clamp
  by_cases h1 : value < lo
  · rw [if_pos h1]
    exact ⟨fun _ => rfl, fun h2 => absurd h1 h2, Or.inl rfl, ne_of_gt h1⟩
  · have h2 : hi < value := lt_of_lt_of_le h (not_lt.mp h1)
    rw [if_neg h1, if_pos h2]
    exact ⟨fun hc => absurd hc h1, fun _ => rfl, Or.inr rfl, ne_of_lt h2⟩

/-- C10: the default configuration also fixes the fields the spec leaves
unmentioned: all three initial setpoints are 0 and both `i_limit` and
`scale` are 1; consequently, on any tick whose `integral_limit` comes from
the untouched default `i_limit`, the integral is clamped into `[-1, 1]`. -/
theorem config_new_unmentioned_defaults {T : Type} [LinearOrderedField T]
    (pid : PidController T) (data : AngleControlData T)
    (hil : data.integral_limit = (FlightStabilizerConfig.new T).i_limit)
    (hr : data.reset_integral = false) :
    (FlightStabilizerConfig.new T).set_point_roll = 0 ∧
    (FlightStabilizerConfig.new T).set_point_pitch = 0 ∧
    (FlightStabilizerConfig.new T).set_point_yaw = 0 ∧
    (FlightStabilizerConfig.new T).i_limit = 1 ∧
    (FlightStabilizerConfig.new T).scale = 1 ∧
    -1 ≤ (compute_angle pid data).2.1 ∧ (compute_angle pid data).2.1 ≤ 1 := by
  have h1 : data.integral_limit = (1 : T) := hil
  have hord : -data.integral_limit ≤ data.integral_limit := by
    rw [h1]
    exact neg_le_self zero_le_one
  have hmem := Number.clamp_mem
    (pid.integral + (pid.set_point - data.measurement) * data.dt) hord
  rw [h1] at hmem
  refine ⟨rfl, rfl, rfl, rfl, rfl, ?_, ?_⟩ <;>
    simp only [compute_angle, hr, Bool.not_false, if_pos, h1]
  · exact hmem.1
  · exact hmem.2

/-- Witness for C2 at `ℚ`: the spec's scenario `set_point = 10`,
`measurement = 0`, `dt = 1`, `integral_limit = 100`, no reset. -/
theorem compute_angle_integral_bounded_witness :
    -(100 : ℚ) ≤ (compute_angle (PidController.mk (10 : ℚ) 1 1 1 0)
      (AngleControlData.mk 0 0 1 100 false)).2.1 ∧
    (compute_angle (PidController.mk (10 : ℚ) 1 1 1 0)
      (AngleControlData.mk 0 0 1 100 false)).2.1 ≤ 100 ∧
    (tick (PidController.mk (10 : ℚ) 1 1 1 0)
      (AngleControlData.mk 0 0 1 100 false)).1.integral =
      (compute_angle (PidController.mk (10 : ℚ) 1 1 1 0)
        (AngleControlData.mk 0 0 1 100 false)).2.1 :=
  compute_angle_integral_bounded _ _ (show (0 : ℚ) ≤ 100 by norm_num) rfl

/-- Witness for C3 at `ℚ`: a prior accumulated integral of 37 is wiped by a
reset tick, and the next tick accumulates from zero. -/
theorem compute_angle_reset_integral_witness :
    (compute_angle (PidController.mk (10 : ℚ) 1 1 1 37)
      (AngleControlData.mk 0 0 1 100 true)).2.1 = 0 ∧
    (tick (PidController.mk (10 : ℚ) 1 1 1 37)
      (AngleControlData.mk 0 0 1 100 true)).1.integral = 0 ∧
    (compute_angle (tick (PidController.mk (10 : ℚ) 1 1 1 37)
        (AngleControlData.mk 0 0 1 100 true)).1
      (AngleControlData.mk 0 0 1 100 false)).2.1 =
      Number.clamp (((10 : ℚ) - 0) * 1) (-(100 : ℚ)) 100 :=
  compute_angle_reset_integral _ _ _ rfl rfl

/-- Witness for C4 at `ℚ`: three ticks at `error = 10`, `dt = 1`,
`integral_limit = 100` accumulate to `3 * 10 * 1 = 30`. -/
theorem integral_accumulation_law_witness :
    (iterate_ticks (PidController.mk (10 : ℚ) 1 1 1 0)
      (AngleControlData.mk 0 0 1 100 false) 3).integral =
      ((3 : Nat) : ℚ) * (((10 : ℚ) - 0) * 1) := by
  refine integral_accumulation_law _ _ 3 rfl rfl ?_
  intro k hk
  interval_cases k <;> norm_num

/-- Witness for C5 at `ℚ`: clamping 5 into the ordered range `[0, 3]`. -/
theorem clamp_within_ordered_bounds_witness :
    ((5 : ℚ) < 0 → Number.clamp (5 : ℚ) 0 3 = 0) ∧
    ((3 : ℚ) < 5 → Number.clamp (5 : ℚ) 0 3 = 3) ∧
    ((0 : ℚ) ≤ 5 → (5 : ℚ) ≤ 3 → Number.clamp (5 : ℚ) 0 3 = 5) :=
  clamp_within_ordered_bounds 5 0 3 (by norm_num)

/-- Witness for C9 at `ℚ`: inverted bounds `min = 1 > max = -1`. -/
theorem clamp_inverted_bounds_witness :
    ((0 : ℚ) < 1 → Number.clamp (0 : ℚ) 1 (-1) = 1) ∧
    (¬ (0 : ℚ) < 1 → Number.clamp (0 : ℚ) 1 (-1) = -1) ∧
    (Number.clamp (0 : ℚ) 1 (-1) = 1 ∨ Number.clamp (0 : ℚ) 1 (-1) = -1) ∧
    Number.clamp (0 : ℚ) 1 (-1) ≠ 0 :=
  clamp_inverted_bounds 0 1 (-1) (by norm_num)

/-- Witness for C10 at `ℚ`: a tick whose `integral_limit` is the default
`i_limit = 1`. -/
theorem config_new_unmentioned_defaults_witness :
    (FlightStabilizerConfig.new ℚ).set_point_roll = 0 ∧
    (FlightStabilizerConfig.new ℚ).set_point_pitch = 0 ∧
    (FlightStabilizerConfig.new ℚ).set_point_yaw = 0 ∧
    (FlightStabilizerConfig.new ℚ).i_limit = 1 ∧
    (FlightStabilizerConfig.new ℚ).scale = 1 ∧
    -1 ≤ (compute_angle (PidController.mk (0 : ℚ) 1 0 0 0)
      (AngleControlData.mk 5 2 1 1 false)).2.1 ∧
    (compute_angle (PidController.mk (0 : ℚ) 1 0 0 0)
      (AngleControlData.mk 5 2 1 1 false)).2.1 ≤ 1 :=
  config_new_unmentioned_defaults _ _ rfl rfl

end PidFlight
